import Mathlib

/-!
Shallow embedding of the Balloon Pop Ultimate simulation core
(src/lib/game/GameEngine.ts, Balloon.ts, PowerUpManager.ts, Particle.ts and
the type/constant module defining BALLOON_TYPES and DEFAULT_GAME_CONFIG).

Modelling conventions:
* JavaScript numbers are modelled as exact rationals.
* `Math.random()` is modelled as an explicit stream `Env.rand : ℕ → ℚ`;
  every call of `Math.random()` in the source consumes one index of the
  stream, in source order.  `performance.now()` is modelled by the timestamp
  of the API call inside which it occurs (the engine always works with the
  frame timestamp).  `Math.sin`, `Math.cos`, `Math.sqrt` and `Math.PI` are
  transcendental on the reals, hence modelled as abstract members of the
  environment, constrained by `EnvOK` only as far as the claims need.
* All state mutation in the source is sequential; each method becomes a
  pure function from the engine state (plus the environment) to the new
  state together with the list of callbacks fired (`GameEvents` in the
  source), in firing order.
-/

/-- Environment: sources of randomness and of real-valued library functions
used by the game code. -/
structure Env where
  rand : ℕ → ℚ
  sinq : ℚ → ℚ
  cosq : ℚ → ℚ
  sqrtq : ℚ → ℚ
  piq : ℚ

/-- Well-formedness of the environment: `Math.random()` returns values in
[0, 1); sine and cosine are bounded by 1 in absolute value. -/
def EnvOK (env : Env) : Prop :=
  (∀ n, 0 ≤ env.rand n ∧ env.rand n < 1) ∧
  (∀ t, |env.sinq t| ≤ 1) ∧ (∀ t, |env.cosq t| ≤ 1)

/-- JavaScript `Math.round` (round half towards positive infinity). -/
def jsRound (q : ℚ) : ℤ := ⌊q + 1 / 2⌋

/-- JavaScript `%` (fmod) for the nonnegative operands used in `hsvToRgb`. -/
def qmod (a b : ℚ) : ℚ := a - b * ⌊a / b⌋

/-- Difficulty profile names (GameSettings.difficulty). -/
inductive Difficulty where
  | easy
  | medium
  | hard
deriving DecidableEq, Repr

/-- Balloon categories (BalloonType.type in the source). -/
inductive BalloonType where
  | normal
  | special
  | heart
  | bomb
  | slow
  | multiplier
  | freeze
  | magnet
  | defuser
deriving DecidableEq, Repr

/-- Power-up effect types (PowerUp.type in the source). -/
inductive PowerUpType where
  | slow
  | multiplier
  | freeze
  | magnet
  | defuser
deriving DecidableEq, Repr

/-- The five balloon categories that activate a power-up on pop; the cast
`balloon.type as any` in `GameEngine.popBalloon` only ever receives these. -/
def BalloonType.asPowerUp : BalloonType → Option PowerUpType
  | .slow => some .slow
  | .multiplier => some .multiplier
  | .freeze => some .freeze
  | .magnet => some .magnet
  | .defuser => some .defuser
  | _ => none

/-- The points column of the static BALLOON_TYPES lookup table
(the emoji/description columns are render-only and not modelled). -/
def BALLOON_TYPES_points : BalloonType → ℚ
  | .normal => 1
  | .special => 5
  | .heart => 0
  | .bomb => -1
  | .slow => 10
  | .multiplier => 10
  | .freeze => 10
  | .magnet => 10
  | .defuser => 10

/-- Game configuration (GameConfig in the source). -/
structure GameConfig where
  spawnRate : Difficulty → ℚ
  baseSpeed : Difficulty → ℚ
  bombChance : Difficulty → ℚ
  powerupChance : Difficulty → ℚ
  powerupDuration : ℚ
  maxLives : ℚ
  comboTimeout : ℚ

/-- DEFAULT_GAME_CONFIG constant from the source. -/
def DEFAULT_GAME_CONFIG : GameConfig where
  spawnRate := fun d => match d with | .easy => 600 | .medium => 400 | .hard => 250
  baseSpeed := fun d => match d with | .easy => 4/5 | .medium => 6/5 | .hard => 9/5
  bombChance := fun d => match d with | .easy => 5/100 | .medium => 10/100 | .hard => 15/100
  powerupChance := fun d => match d with | .easy => 5/100 | .medium => 8/100 | .hard => 10/100
  powerupDuration := 10
  maxLives := 3
  comboTimeout := 1000

/-- Session game state (GameState in the source). -/
structure GameState where
  running : Bool
  score : ℚ
  highScore : ℚ
  lives : ℚ
  level : ℚ
  combo : ℚ
  gameStarted : Bool
  gameOver : Bool

/-- Canvas dimensions (GameDimensions in the source). -/
structure GameDimensions where
  width : ℚ
  height : ℚ
  dpr : ℚ

/-- An active power-up entry (PowerUp in the source). -/
structure PowerUp where
  type : PowerUpType
  duration : ℚ
  active : Bool
  timeLeft : ℚ
deriving DecidableEq

/-- Callbacks fired by the PowerUpManager (onActivate / onDeactivate /
onUpdate in the source). -/
inductive PMEvent where
  | activateE (p : PowerUp)
  | deactivateE (p : PowerUp)
  | updateE (p : PowerUp)
deriving DecidableEq

/-- The manager's `Map<string, PowerUp>` is modelled as a list in insertion
order; `Map` keys are unique, which every reachable manager state satisfies
(`activatePowerUp` deletes the key before re-inserting). -/
def PowerUpManager.isActive (m : List PowerUp) (t : PowerUpType) : Bool :=
  match m.find? (fun p => p.type == t) with
  | some p => p.active
  | none => false

/-- PowerUpManager.getTimeLeft. -/
def PowerUpManager.getTimeLeft (m : List PowerUp) (t : PowerUpType) : ℚ :=
  match m.find? (fun p => p.type == t) with
  | some p => p.timeLeft
  | none => 0

/-- PowerUpManager.deactivatePowerUp: mark inactive with zero time, remove
from the map, and fire the deactivate callback. -/
def PowerUpManager.deactivatePowerUp (m : List PowerUp) (t : PowerUpType) :
    List PowerUp × List PMEvent :=
  match m.find? (fun p => p.type == t) with
  | some p =>
      (m.eraseP (fun q => q.type == t),
       [PMEvent.deactivateE { p with active := false, timeLeft := 0 }])
  | none => (m, [])

/-- PowerUpManager.activatePowerUp: deactivate any existing entry of the same
type first, then install a fresh entry with full duration. -/
def PowerUpManager.activatePowerUp (m : List PowerUp) (t : PowerUpType) (duration : ℚ) :
    List PowerUp × List PMEvent :=
  let (m1, evs1) :=
    if m.any (fun p => p.type == t) then PowerUpManager.deactivatePowerUp m t else (m, [])
  let fresh : PowerUp := { type := t, duration := duration, active := true, timeLeft := duration }
  (m1 ++ [fresh], evs1 ++ [PMEvent.activateE fresh])

/-- PowerUpManager.update: decrement every entry's remaining time by
deltaTime; entries reaching ≤ 0 are marked inactive, removed and fire a
deactivate callback, the others fire an update callback. -/
def PowerUpManager.update (m : List PowerUp) (dt : ℚ) : List PowerUp × List PMEvent :=
  let decremented := m.map (fun p => { p with timeLeft := p.timeLeft - dt })
  let evs := decremented.map (fun p =>
    if p.timeLeft ≤ 0 then PMEvent.deactivateE { p with active := false }
    else PMEvent.updateE p)
  (decremented.filter (fun p => decide (0 < p.timeLeft)), evs)

/-- PowerUpManager.clearAll: empty the map and fire a deactivate callback for
every formerly active entry. -/
def PowerUpManager.clearAll (m : List PowerUp) : List PowerUp × List PMEvent :=
  ([], m.map (fun p => PMEvent.deactivateE { p with active := false }))

/-- PowerUpManager.getSlowMotionMultiplier. -/
def PowerUpManager.getSlowMotionMultiplier (m : List PowerUp) : ℚ :=
  if PowerUpManager.isActive m .slow then 1/2 else 1

/-- PowerUpManager.getScoreMultiplier. -/
def PowerUpManager.getScoreMultiplier (m : List PowerUp) : ℚ :=
  if PowerUpManager.isActive m .multiplier then 2 else 1

/-- PowerUpManager.isFreezeActive. -/
def PowerUpManager.isFreezeActive (m : List PowerUp) : Bool :=
  PowerUpManager.isActive m .freeze

/-- PowerUpManager.isMagnetActive. -/
def PowerUpManager.isMagnetActive (m : List PowerUp) : Bool :=
  PowerUpManager.isActive m .magnet

/-- PowerUpManager.isDefuserActive. -/
def PowerUpManager.isDefuserActive (m : List PowerUp) : Bool :=
  PowerUpManager.isActive m .defuser

/-- A decorative particle (Particle in the source). -/
structure Particle where
  id : ℚ
  x : ℚ
  y : ℚ
  size : ℚ
  vx : ℚ
  vy : ℚ
  color : ℤ × ℤ × ℤ
  alpha : ℚ
  life : ℚ
  maxLife : ℚ
  gravity : ℚ
  friction : ℚ

/-- Particle constructor; consumes five random draws in source order
(id, size, vx, vy, maxLife). -/
def Particle.init (env : Env) (i : ℕ) (x y : ℚ) (color : ℤ × ℤ × ℤ) : Particle × ℕ :=
  ({ id := env.rand i
     x := x
     y := y
     size := 2 + env.rand (i + 1) * 4
     vx := (env.rand (i + 2) - 1/2) * 4
     vy := (env.rand (i + 3) - 1/2) * 4
     color := color
     alpha := 1
     life := 1
     maxLife := 60 + env.rand (i + 4) * 60
     gravity := 1/10
     friction := 49/50 }, i + 5)

/-- Particle.update: integrate position, apply gravity then friction,
decrement life and recompute alpha. -/
def Particle.update (p : Particle) (deltaTime : ℚ) : Particle :=
  let dt := deltaTime * 60
  let x2 := p.x + p.vx * dt
  let y2 := p.y + p.vy * dt
  let vyg := p.vy + p.gravity * dt
  let vx2 := p.vx * p.friction
  let vy2 := vyg * p.friction
  let life2 := p.life - dt
  { p with x := x2, y := y2, vx := vx2, vy := vy2, life := life2,
           alpha := max 0 (life2 / p.maxLife) }

/-- Particle.isDead. -/
def Particle.isDead (p : Particle) : Bool :=
  decide (p.life ≤ 0) || decide (p.alpha ≤ 0)

/-- ParticleSystem.addParticles: push `count` fresh particles (the source
default and the only call site use count = 15). -/
def ParticleSystem.addParticles (env : Env) (i : ℕ) (ps : List Particle)
    (x y : ℚ) (color : ℤ × ℤ × ℤ) : ℕ → List Particle × ℕ
  | 0 => (ps, i)
  | n + 1 =>
      let (p, i1) := Particle.init env i x y color
      ParticleSystem.addParticles env i1 (ps ++ [p]) x y color n

/-- Color palette of ParticleSystem.addComboExplosion. -/
def comboColors : List (ℤ × ℤ × ℤ) :=
  [(255, 215, 0), (255, 165, 0), (255, 20, 147), (0, 255, 255)]

/-- One iteration of the addComboExplosion loop: a random palette color, a
fresh particle, then overridden velocity (random angle and speed), size and
maxLife; consumes nine random draws in source order. -/
def ParticleSystem.comboParticle (env : Env) (i : ℕ) (x y : ℚ) : Particle × ℕ :=
  let color := comboColors.getD (⌊env.rand i * (comboColors.length : ℚ)⌋.toNat) (0, 0, 0)
  let (p, i1) := Particle.init env (i + 1) x y color
  let angle := env.rand i1 * env.piq * 2
  let speed := 2 + env.rand (i1 + 1) * 4
  ({ p with vx := env.cosq angle * speed
            vy := env.sinq angle * speed
            size := 3 + env.rand (i1 + 2) * 4
            maxLife := 60 + env.rand (i1 + 3) * 60 }, i1 + 4)

/-- The loop of ParticleSystem.addComboExplosion. -/
def ParticleSystem.comboLoop (env : Env) (i : ℕ) (ps : List Particle)
    (x y : ℚ) : ℕ → List Particle × ℕ
  | 0 => (ps, i)
  | n + 1 =>
      let (p, i1) := ParticleSystem.comboParticle env i x y
      ParticleSystem.comboLoop env i1 (ps ++ [p]) x y n

/-- ParticleSystem.addComboExplosion: min(30, 10 + comboCount * 3) particles. -/
def ParticleSystem.addComboExplosion (env : Env) (i : ℕ) (ps : List Particle)
    (x y : ℚ) (comboCount : ℕ) : List Particle × ℕ :=
  ParticleSystem.comboLoop env i ps x y (min 30 (10 + comboCount * 3))

/-- ParticleSystem.update: advance every particle and drop the dead ones (the
source iterates backwards and splices; since particles are independent this
equals map-then-filter, preserving order). -/
def ParticleSystem.update (ps : List Particle) (dt : ℚ) : List Particle :=
  (ps.map (fun p => Particle.update p dt)).filter (fun p => !(Particle.isDead p))

/-- A balloon entity (Balloon in the source). -/
structure Balloon where
  id : ℚ
  x : ℚ
  y : ℚ
  r : ℚ
  speed : ℚ
  type : BalloonType
  birth : ℚ
  lifespan : ℚ
  vx : ℚ
  vy : ℚ
  color : ℤ × ℤ × ℤ
  xOffset : ℚ

/-- Balloon.hsvToRgb (Math.min of three arguments folds left). -/
def Balloon.hsvToRgb (h s v : ℚ) : ℤ × ℤ × ℤ :=
  let f := fun (n : ℚ) =>
    let k := qmod (n + h / 60) 6
    v - v * s * max (min (min k (4 - k)) 1) 0
  (jsRound (f 5 * 255), jsRound (f 3 * 255), jsRound (f 1 * 255))

/-- Balloon.generateColor: three random draws (hue 200-300, saturation
0.5-1, value 0.8-1), then hsvToRgb. -/
def Balloon.generateColor (env : Env) (i : ℕ) : (ℤ × ℤ × ℤ) × ℕ :=
  let hue := 200 + env.rand i * 100
  let saturation := 1/2 + env.rand (i + 1) * (1/2)
  let value := 4/5 + env.rand (i + 2) * (1/5)
  (Balloon.hsvToRgb hue saturation value, i + 3)

/-- Balloon constructor; consumes six random draws in source order
(id, vx, hue, saturation, value, xOffset).  `birth` is the timestamp of the
call creating the balloon; lifespan is the fixed 50000 ms. -/
def Balloon.init (env : Env) (i : ℕ) (now x y r speed : ℚ) (type : BalloonType) :
    Balloon × ℕ :=
  let (color, i3) := Balloon.generateColor env (i + 2)
  ({ id := env.rand i
     x := x
     y := y
     r := r
     speed := speed
     type := type
     birth := now
     lifespan := 50000
     vx := -(1/5) + env.rand (i + 1) * (2/5)
     vy := -speed
     color := color
     xOffset := -50 + env.rand i3 * 100 }, i3 + 1)

/-- Balloon.update: freeze stops all motion; otherwise a slow-motion factor
applies, and either magnet attraction to the canvas center or the normal
upward drift plus sinusoidal wobble. -/
def Balloon.update (env : Env) (b : Balloon) (now deltaTime : ℚ)
    (freezeActive slowMotionActive magnetActive : Bool)
    (canvasWidth canvasHeight : ℚ) : Balloon :=
  if freezeActive then b
  else
    let speedMultiplier : ℚ := if slowMotionActive then 1/2 else 1
    let frameRate : ℚ := 60
    if magnetActive then
      let centerX := canvasWidth / 2
      let centerY := canvasHeight / 2
      let dx := centerX - b.x
      let dy := centerY - b.y
      let distance := env.sqrtq (dx * dx + dy * dy)
      if distance > 10 then
        let magnetForce : ℚ := 1/2
        { b with
          x := b.x + dx / distance * b.speed * magnetForce * speedMultiplier * deltaTime * frameRate
          y := b.y + dy / distance * b.speed * magnetForce * speedMultiplier * deltaTime * frameRate }
      else b
    else
      let y2 := b.y + b.vy * speedMultiplier * deltaTime * frameRate
      let x2 := b.x + b.vx * speedMultiplier * deltaTime * frameRate
      let time := (now - b.birth) / 500
      { b with y := y2, x := x2 + env.sinq time * (1/2) }

/-- Balloon.isOffScreen: true once the balloon has fully exited the top edge
(the canvasHeight parameter is unused in the source body as well). -/
def Balloon.isOffScreen (b : Balloon) (canvasHeight : ℚ) : Bool :=
  decide (b.y < -b.r)

/-- Balloon.isExpired: the balloon's lifespan has elapsed at time `now`. -/
def Balloon.isExpired (b : Balloon) (now : ℚ) : Bool :=
  decide (now - b.birth > b.lifespan)

/-- Balloon.containsPoint: Euclidean distance at most r.  The source compares
`Math.sqrt(d2) <= r`; squaring both sides is exact for the nonnegative radii
the game creates. -/
def Balloon.containsPoint (b : Balloon) (x y : ℚ) : Bool :=
  decide ((x - b.x) ^ 2 + (y - b.y) ^ 2 ≤ b.r ^ 2)

/-- Balloon.getPoints. -/
def Balloon.getPoints (b : Balloon) : ℚ :=
  BALLOON_TYPES_points b.type

/-- The powerupTypes array inside Balloon.selectBalloonType (note: seven
entries, including heart and special). -/
def powerupTypes : List BalloonType :=
  [.slow, .multiplier, .freeze, .magnet, .defuser, .heart, .special]

/-- Balloon.selectBalloonType: weighted draw — bomb first, then a uniform
index into powerupTypes, otherwise normal. -/
def Balloon.selectBalloonType (env : Env) (i : ℕ) (bombChance powerupChance : ℚ) :
    BalloonType × ℕ :=
  let random := env.rand i
  if random < bombChance then (.bomb, i + 1)
  else if random < bombChance + powerupChance then
    (powerupTypes.getD (⌊env.rand (i + 1) * (powerupTypes.length : ℚ)⌋.toNat) .normal, i + 2)
  else (.normal, i + 1)

/-- Balloon.create: randomized radius 25-45, x within the canvas, start just
below the bottom edge, speed variation ±0.2, then the weighted type draw and
the constructor. -/
def Balloon.create (env : Env) (i : ℕ) (now canvasWidth canvasHeight
    baseSpeed bombChance powerupChance : ℚ) : Balloon × ℕ :=
  let r := 25 + env.rand i * 20
  let x := r + env.rand (i + 1) * (canvasWidth - 2 * r)
  let y := canvasHeight + r
  let speed := baseSpeed + (env.rand (i + 2) - 1/2) * (2/5)
  let (type, i3) := Balloon.selectBalloonType env (i + 3) bombChance powerupChance
  Balloon.init env i3 now x y r speed type

/-- Callbacks of the GameEvents collaborator, in firing order.  The engine's
internal onPowerUpDeactivate / onPowerUpUpdate handlers are no-ops, so only
activation is forwarded from the PowerUpManager. -/
inductive GameEvent where
  | balloonPop (b : Balloon) (points : ℚ)
  | powerUpActivate (p : PowerUp)
  | lifeLost
  | lifeGained
  | gameOverE (finalScore : ℚ)
  | comboE (comboCount : ℕ)
  | scoreUpdate (score multiplier : ℚ)

/-- The full engine state (private fields of class GameEngine). -/
structure GameEngine where
  state : GameState
  config : GameConfig
  dimensions : GameDimensions
  balloons : List Balloon
  particles : List Particle
  powerUps : List PowerUp
  lastUpdateTime : ℚ
  lastSpawnTime : ℚ
  comboTimer : ℚ
  comboCount : ℕ
  rngIdx : ℕ

/-- GameEngine constructor.  The source merges a partial config over
DEFAULT_GAME_CONFIG; callers of the repository pass no overrides, so the
constructor here takes the resulting full config. -/
def mkEngine (config : GameConfig) (dimensions : GameDimensions) : GameEngine where
  state :=
    { running := false, score := 0, highScore := 0, lives := config.maxLives,
      level := 1, combo := 0, gameStarted := false, gameOver := false }
  config := config
  dimensions := dimensions
  balloons := []
  particles := []
  powerUps := []
  lastUpdateTime := 0
  lastSpawnTime := 0
  comboTimer := 0
  comboCount := 0
  rngIdx := 0

/-- GameEngine.getCurrentDifficulty.  The source body is hard-coded:
"For now, return easy - this can be enhanced to scale with score/level". -/
def GameEngine.getCurrentDifficulty (_e : GameEngine) : Difficulty :=
  Difficulty.easy

/-- GameEngine.updateDifficulty.  The source body is empty ("Update internal
difficulty settings if needed"), so this is the identity. -/
def GameEngine.updateDifficulty (e : GameEngine) (_difficulty : Difficulty) : GameEngine :=
  e

/-- GameEngine.addScore: multiply by the current score multiplier, add, and
fire onScoreUpdate. -/
def GameEngine.addScore (e : GameEngine) (points : ℚ) : GameEngine × List GameEvent :=
  let multiplier := PowerUpManager.getScoreMultiplier e.powerUps
  let finalPoints := points * multiplier
  let s := e.state.score + finalPoints
  ({ e with state := { e.state with score := s } }, [GameEvent.scoreUpdate s multiplier])

/-- GameEngine.resetCombo. -/
def GameEngine.resetCombo (e : GameEngine) : GameEngine :=
  { e with comboCount := 0, comboTimer := 0 }

/-- GameEngine.loseLife: decrement lives (no lower clamp in the source),
reset the combo and fire onLifeLost. -/
def GameEngine.loseLife (e : GameEngine) : GameEngine × List GameEvent :=
  let e1 := { e with state := { e.state with lives := e.state.lives - 1 } }
  (e1.resetCombo, [GameEvent.lifeLost])

/-- GameEngine.gainLife: increment lives, clamped at config.maxLives, and
fire onLifeGained. -/
def GameEngine.gainLife (e : GameEngine) : GameEngine × List GameEvent :=
  ({ e with state :=
      { e.state with lives := min (e.state.lives + 1) e.config.maxLives } },
   [GameEvent.lifeGained])

/-- GameEngine.incrementCombo: bump the counter, restart the combo countdown,
and when the counter exceeds 1 award comboCount * 10 bonus points, spawn a
combo explosion and fire onCombo. -/
def GameEngine.incrementCombo (env : Env) (e : GameEngine) : GameEngine × List GameEvent :=
  let c := e.comboCount + 1
  let e1 := { e with comboCount := c, comboTimer := e.config.comboTimeout / 1000 }
  if c > 1 then
    let comboPoints : ℚ := (c : ℚ) * 10
    let (e2, evs2) := e1.addScore comboPoints
    let (ps, i1) := ParticleSystem.addComboExplosion env e2.rngIdx e2.particles
      (e2.dimensions.width / 2) (e2.dimensions.height / 4) c
    ({ e2 with particles := ps, rngIdx := i1 }, evs2 ++ [GameEvent.comboE c])
  else (e1, [])

/-- GameEngine.activatePowerUp plus the onActivate wiring: the manager's
activate callback is forwarded as onPowerUpActivate, its deactivate and
update callbacks are engine no-ops. -/
def GameEngine.activatePowerUpE (e : GameEngine) (t : PowerUpType) : GameEngine × List GameEvent :=
  let (m, pmEvs) := PowerUpManager.activatePowerUp e.powerUps t e.config.powerupDuration
  let evs := pmEvs.filterMap (fun ev => match ev with
    | PMEvent.activateE p => some (GameEvent.powerUpActivate p)
    | _ => none)
  ({ e with powerUps := m }, evs)

/-- GameEngine.popBalloon: particles, then the per-category effect, then
removal of the balloon and the onBalloonPop callback. -/
def GameEngine.popBalloon (env : Env) (e : GameEngine) (b : Balloon) (index : ℕ) :
    GameEngine × List GameEvent :=
  let points := b.getPoints
  let (ps, i1) := ParticleSystem.addParticles env e.rngIdx e.particles b.x b.y b.color 15
  let e1 := { e with particles := ps, rngIdx := i1 }
  let (e2, evs2) : GameEngine × List GameEvent :=
    match b.type with
    | .normal | .special =>
        let (ea, evsA) := e1.addScore |points|
        let (eb, evsB) := GameEngine.incrementCombo env ea
        (eb, evsA ++ evsB)
    | .heart => e1.gainLife
    | .bomb =>
        if PowerUpManager.isDefuserActive e1.powerUps then e1.addScore 1
        else e1.loseLife
    | .slow => popPowerUpCase e1 .slow
    | .multiplier => popPowerUpCase e1 .multiplier
    | .freeze => popPowerUpCase e1 .freeze
    | .magnet => popPowerUpCase e1 .magnet
    | .defuser => popPowerUpCase e1 .defuser
  let e3 := { e2 with balloons := e2.balloons.eraseIdx index }
  (e3, evs2 ++ [GameEvent.balloonPop b points])
where
  /-- The default branch of the switch: activate the power-up, award a flat
  10 points and increment the combo. -/
  popPowerUpCase (e1 : GameEngine) (t : PowerUpType) : GameEngine × List GameEvent :=
    let (ea, evsA) := e1.activatePowerUpE t
    let (eb, evsB) := ea.addScore 10
    let (ec, evsC) := GameEngine.incrementCombo env eb
    (ec, evsA ++ evsB ++ evsC)

/-- The backwards scan of GameEngine.handleInput: find the hit balloon of
highest index (most recently spawned first), if any. -/
def findHit (bs : List Balloon) (x y : ℚ) : Option (ℕ × Balloon) :=
  match bs with
  | [] => none
  | b :: rest =>
      match findHit rest x y with
      | some (i, hit) => some (i + 1, hit)
      | none => if b.containsPoint x y then some (0, b) else none

/-- GameEngine.handleInput: no-op unless running; pop at most the one hit
balloon, otherwise a miss resets the combo. -/
def GameEngine.handleInput (env : Env) (e : GameEngine) (x y : ℚ) :
    GameEngine × List GameEvent :=
  if e.state.running = false then (e, [])
  else
    match findHit e.balloons x y with
    | some (i, b) => GameEngine.popBalloon env e b i
    | none => (e.resetCombo, [])

/-- GameEngine.spawnBalloons: spawn one balloon when the difficulty's spawn
interval has elapsed, using the tunables of getCurrentDifficulty. -/
def GameEngine.spawnBalloons (env : Env) (e : GameEngine) (currentTime : ℚ) : GameEngine :=
  let spawnInterval := e.config.spawnRate e.getCurrentDifficulty
  if currentTime - e.lastSpawnTime > spawnInterval then
    let (b, i1) := Balloon.create env e.rngIdx currentTime
      e.dimensions.width e.dimensions.height
      (e.config.baseSpeed e.getCurrentDifficulty)
      (e.config.bombChance e.getCurrentDifficulty)
      (e.config.powerupChance e.getCurrentDifficulty)
    { e with balloons := e.balloons ++ [b], lastSpawnTime := currentTime, rngIdx := i1 }
  else e

/-- The culling scan of GameEngine.updateBalloons over the already-moved
balloons (the source iterates backwards; balloons are independent, so a
structural recursion keeping order is equivalent): returns the surviving
balloons and the number of loseLife calls — one per culled balloon that is
not off the top edge and is neither a bomb nor a heart. -/
def runCull (canvasHeight now : ℚ) : List Balloon → List Balloon × ℕ
  | [] => ([], 0)
  | b :: rest =>
      let (kept, n) := runCull canvasHeight now rest
      if b.isOffScreen canvasHeight || b.isExpired now then
        (kept,
         if !(b.isOffScreen canvasHeight) && !(b.type == .bomb) && !(b.type == .heart)
         then n + 1 else n)
      else (b :: kept, n)

/-- Apply GameEngine.loseLife n times (one call per penalized balloon culled
in this tick). -/
def GameEngine.applyLosses (e : GameEngine) : ℕ → GameEngine × List GameEvent
  | 0 => (e, [])
  | n + 1 =>
      let (e1, evs1) := e.loseLife
      let (e2, evs2) := GameEngine.applyLosses e1 n
      (e2, evs1 ++ evs2)

/-- GameEngine.updateBalloons: move every balloon (freeze/slow/magnet effects
composed in), cull the off-screen or expired ones and charge the penalties. -/
def GameEngine.updateBalloons (env : Env) (e : GameEngine) (deltaTime now : ℚ) :
    GameEngine × List GameEvent :=
  let moved := e.balloons.map (fun b =>
    Balloon.update env b now deltaTime
      (PowerUpManager.isFreezeActive e.powerUps)
      (PowerUpManager.isActive e.powerUps .slow)
      (PowerUpManager.isMagnetActive e.powerUps)
      e.dimensions.width e.dimensions.height)
  let (kept, losses) := runCull e.dimensions.height now moved
  GameEngine.applyLosses { e with balloons := kept } losses

/-- GameEngine.gameOver: stop, mark game over, clear all power-ups (their
deactivate callbacks are engine no-ops) and fire onGameOver. -/
def GameEngine.gameOverStep (e : GameEngine) : GameEngine × List GameEvent :=
  ({ e with
      state := { e.state with running := false, gameOver := true }
      powerUps := (PowerUpManager.clearAll e.powerUps).1 },
   [GameEvent.gameOverE e.state.score])

/-- The combo-countdown block at the start of GameEngine.update: while the
countdown is positive it is decremented by deltaTime, and the combo counter
is reset once it crosses zero (the timer itself is stored as decremented,
possibly negative, exactly as in the source). -/
def GameEngine.tickCombo (e : GameEngine) (deltaTime : ℚ) : GameEngine :=
  if e.comboTimer > 0 then
    let t2 := e.comboTimer - deltaTime
    { e with comboTimer := t2, comboCount := if t2 ≤ 0 then 0 else e.comboCount }
  else e

/-- The game-over check at the end of GameEngine.update: once lives have
reached 0 the engine transitions to the ended phase. -/
def GameEngine.checkGameOver (e : GameEngine) (evs : List GameEvent) :
    GameEngine × List GameEvent :=
  if e.state.lives ≤ 0 then
    let (e7, evs7) := e.gameOverStep
    (e7, evs ++ evs7)
  else (e, evs)

/-- GameEngine.update: no-op unless running; otherwise advance the clock,
run down the combo countdown, spawn, move/cull balloons, advance particles
and power-ups, and end the game once lives have reached 0. -/
def GameEngine.update (env : Env) (e : GameEngine) (currentTime : ℚ) :
    GameEngine × List GameEvent :=
  if e.state.running = false then (e, [])
  else
    let deltaTime := (currentTime - e.lastUpdateTime) / 1000
    let e1 := { e with lastUpdateTime := currentTime }
    let e2 := GameEngine.tickCombo e1 deltaTime
    let e3 := GameEngine.spawnBalloons env e2 currentTime
    let (e4, evs4) := GameEngine.updateBalloons env e3 deltaTime currentTime
    let e5 := { e4 with particles := ParticleSystem.update e4.particles deltaTime }
    let e6 := { e5 with powerUps := (PowerUpManager.update e5.powerUps deltaTime).1 }
    GameEngine.checkGameOver e6 evs4

/-- GameEngine.resetGame: fresh state preserving only highScore; clear
balloons, particles, power-ups and the combo bookkeeping. -/
def GameEngine.resetGame (e : GameEngine) : GameEngine :=
  { e with
    state :=
      { running := false, score := 0, highScore := e.state.highScore,
        lives := e.config.maxLives, level := 1, combo := 0,
        gameStarted := false, gameOver := false }
    balloons := []
    particles := []
    powerUps := (PowerUpManager.clearAll e.powerUps).1
    comboTimer := 0
    comboCount := 0 }

/-- GameEngine.startGame: reset, mark running/started, seed both clocks with
the call time, then apply the difficulty (a source no-op). -/
def GameEngine.startGame (e : GameEngine) (now : ℚ) (difficulty : Difficulty) : GameEngine :=
  let e1 := e.resetGame
  let e2 := { e1 with
    state := { e1.state with running := true, gameStarted := true }
    lastUpdateTime := now
    lastSpawnTime := now }
  e2.updateDifficulty difficulty

/-- GameEngine.pauseGame: only clears the running flag. -/
def GameEngine.pauseGame (e : GameEngine) : GameEngine :=
  { e with state := { e.state with running := false } }

/-- GameEngine.resumeGame: set running and re-anchor the delta-time clock. -/
def GameEngine.resumeGame (e : GameEngine) (now : ℚ) : GameEngine :=
  { e with state := { e.state with running := true }, lastUpdateTime := now }

/-- The public API calls an external driver can make, each carrying the
wall-clock timestamp at which it occurs where the source reads the clock. -/
inductive Cmd where
  | start (t : ℚ) (d : Difficulty)
  | update (t : ℚ)
  | input (x y : ℚ)
  | pause
  | resume (t : ℚ)
  | reset

/-- One API call. -/
def step (env : Env) (e : GameEngine) : Cmd → GameEngine × List GameEvent
  | .start t d => (e.startGame t d, [])
  | .update t => GameEngine.update env e t
  | .input x y => GameEngine.handleInput env e x y
  | .pause => (e.pauseGame, [])
  | .resume t => (e.resumeGame t, [])
  | .reset => (e.resetGame, [])

/-- A whole session: fold the API calls over an engine state. -/
def run (env : Env) (e : GameEngine) (cmds : List Cmd) : GameEngine :=
  cmds.foldl (fun a c => (step env a c).1) e

/-- A deterministic environment: every random draw is 1/2, sine and cosine
are the zero function, pi is approximated by 3. -/
def env0 : Env where
  rand := fun _ => 1/2
  sinq := fun _ => 0
  cosq := fun _ => 0
  sqrtq := fun _ => 0
  piq := 3

/-- An environment whose first draw lands in the power-up branch of the type
selection and whose second draw indexes the sixth entry of powerupTypes. -/
def env6 : Env where
  rand := fun n => if n = 0 then 6/100 else 11/14
  sinq := fun _ => 0
  cosq := fun _ => 0
  sqrtq := fun _ => 0
  piq := 3

/-- A concrete canvas: 1000 wide and tall enough that balloons rising for
one lifespan stay on screen. -/
def dims0 : GameDimensions where
  width := 1000
  height := 1000000
  dpr := 1

/-- A freshly constructed engine over the default configuration. -/
def engine0 : GameEngine := mkEngine DEFAULT_GAME_CONFIG dims0

/-- A concrete normal balloon at x = 100 k used in the combo scenario. -/
def c4Balloon (k : ℚ) : Balloon where
  id := k
  x := 100 * k
  y := 500
  r := 25
  speed := 1
  type := .normal
  birth := 0
  lifespan := 50000
  vx := 0
  vy := -1
  color := (0, 0, 0)
  xOffset := 0

/-- A running engine holding five normal balloons, score 0, combo 0 and no
active power-ups. -/
def c4Engine : GameEngine :=
  { engine0 with
    state := { engine0.state with running := true, gameStarted := true }
    balloons := [c4Balloon 1, c4Balloon 2, c4Balloon 3, c4Balloon 4, c4Balloon 5] }

/-- Five taps, one on each balloon center, with no update call in between
(so the combo countdown never elapses). -/
def c4Cmds : List Cmd :=
  [Cmd.input 100 500, Cmd.input 200 500, Cmd.input 300 500,
   Cmd.input 400 500, Cmd.input 500 500]

/-- A concrete bomb balloon. -/
def bombBalloon : Balloon := { c4Balloon 9 with type := .bomb }

/-- A concrete heart balloon. -/
def heartBalloon : Balloon := { c4Balloon 9 with type := .heart }

/-- A concrete active power-up entry with part of its time consumed. -/
def pmSlow : PowerUp where
  type := .slow
  duration := 10
  active := true
  timeLeft := 4

/-- The balloon the engine spawns under env0 with the easy tunables of the
default configuration on the 1000-wide canvas: the concrete runs below
re-derive it from Balloon.create. -/
def cB (birth y : ℚ) : Balloon where
  id := 1/2
  x := 500
  y := y
  r := 35
  speed := 4/5
  type := .normal
  birth := birth
  lifespan := 50000
  vx := 0
  vy := -(4/5)
  color := Balloon.hsvToRgb 250 (3/4) (9/10)
  xOffset := 0

/-- Intermediate engine states of the lives-counterexample run, sharing all
the fields that never change during it. -/
def c8E (lastUpdate lastSpawn : ℚ) (bs : List Balloon) (idx : ℕ) : GameEngine where
  state :=
    { running := true, score := 0, highScore := 0, lives := 3,
      level := 1, combo := 0, gameStarted := true, gameOver := false }
  config := DEFAULT_GAME_CONFIG
  dimensions := dims0
  balloons := bs
  particles := []
  powerUps := []
  lastUpdateTime := lastUpdate
  lastSpawnTime := lastSpawn
  comboTimer := 0
  comboCount := 0
  rngIdx := idx

/-- Engine state right after startGame(easy) at time 0. -/
def c8E1 : GameEngine := c8E 0 0 [] 0

/-- Engine state after the update at t = 601 (one balloon spawned, moved
once). -/
def c8E2 : GameEngine := c8E 601 601 [cB 601 (125000769/125)] 10

/-- Engine state after the update at t = 1202. -/
def c8E3 : GameEngine :=
  c8E 1202 1202 [cB 601 (124997163/125), cB 1202 (125000769/125)] 20

/-- Engine state after the update at t = 1803. -/
def c8E4 : GameEngine :=
  c8E 1803 1803
    [cB 601 (124993557/125), cB 1202 (124997163/125), cB 1803 (125000769/125)] 30

/-- Engine state after the update at t = 2404: four normal balloons in
flight, three lives. -/
def c8E5 : GameEngine :=
  c8E 2404 2404
    [cB 601 (124989951/125), cB 1202 (124993557/125),
     cB 1803 (124997163/125), cB 2404 (125000769/125)] 40

/-- The lives-counterexample session: start, four spawning updates, then one
update at t = 60000 in which all four balloons expire on screen at once. -/
def c8Cmds : List Cmd :=
  [Cmd.start 0 .easy, Cmd.update 601, Cmd.update 1202, Cmd.update 1803,
   Cmd.update 2404, Cmd.update 60000]

/-- Claim C10: pauseGame changes only the running flag; score, highScore,
lives, level, combo, gameStarted, gameOver, the balloon, particle and
power-up collections, and the combo bookkeeping are all unchanged. -/
theorem C10_pause_only_clears_running (e : GameEngine) :
    (GameEngine.pauseGame e).state.running = false ∧
    (GameEngine.pauseGame e).state.score = e.state.score ∧
    (GameEngine.pauseGame e).state.highScore = e.state.highScore ∧
    (GameEngine.pauseGame e).state.lives = e.state.lives ∧
    (GameEngine.pauseGame e).state.level = e.state.level ∧
    (GameEngine.pauseGame e).state.combo = e.state.combo ∧
    (GameEngine.pauseGame e).state.gameStarted = e.state.gameStarted ∧
    (GameEngine.pauseGame e).state.gameOver = e.state.gameOver ∧
    (GameEngine.pauseGame e).balloons = e.balloons ∧
    (GameEngine.pauseGame e).particles = e.particles ∧
    (GameEngine.pauseGame e).powerUps = e.powerUps ∧
    (GameEngine.pauseGame e).comboCount = e.comboCount ∧
    (GameEngine.pauseGame e).comboTimer = e.comboTimer := by
  simp [GameEngine.pauseGame]

/-- Claim C9: while the engine is not in the running phase, update and
handleInput are silent no-ops returning the state unchanged and firing no
callbacks. -/
theorem C9_not_running_noop (env : Env) (e : GameEngine) (t x y : ℚ)
    (h : e.state.running = false) :
    GameEngine.update env e t = (e, []) ∧
    GameEngine.handleInput env e x y = (e, []) := by
  constructor
  · unfold GameEngine.update
    rw [h]
    simp
  · unfold GameEngine.handleInput
    rw [h]
    simp

/-- Witness for C9 at the freshly constructed (idle) engine. -/
theorem C9_not_running_noop_witness :
    engine0.state.running = false ∧
    GameEngine.update env0 engine0 5 = (engine0, []) ∧
    GameEngine.handleInput env0 engine0 3 4 = (engine0, []) :=
  ⟨rfl, (C9_not_running_noop env0 engine0 5 3 4 rfl).1,
    (C9_not_running_noop env0 engine0 5 3 4 rfl).2⟩

/-- After erasing the first entry of a given type from a type-unique manager
list, no entry of that type remains. -/
theorem eraseP_type_filter_nil (m : List PowerUp) (t : PowerUpType)
    (hU : (m.map PowerUp.type).Nodup) :
    (m.eraseP (fun q => q.type == t)).filter (fun p => p.type == t) = [] := by
  induction m with
  | nil => simp
  | cons p rest ih =>
      simp only [List.map_cons, List.nodup_cons] at hU
      have hrest := ih hU.2
      by_cases hp : p.type = t
      · have hnone : rest.filter (fun q => q.type == t) = [] := by
          rw [List.filter_eq_nil_iff]
          intro q hq hqt
          have hqt2 : q.type = t := by simpa using hqt
          exact hU.1 (by rw [hp, ← hqt2]; exact List.mem_map_of_mem PowerUp.type hq)
        simp [List.eraseP_cons, hp, hnone]
      · simp [List.eraseP_cons, hp, hrest]

/-- Erasing the first entry of a given type does not disturb the entries of
the other types. -/
theorem eraseP_type_filter_other (m : List PowerUp) (t : PowerUpType) :
    (m.eraseP (fun q => q.type == t)).filter (fun p => !(p.type == t)) =
      m.filter (fun p => !(p.type == t)) := by
  induction m with
  | nil => simp
  | cons p rest ih =>
      by_cases hp : p.type = t
      · simp [List.eraseP_cons, hp]
      · simp [List.eraseP_cons, hp, ih]

/-- Erasing preserves type-uniqueness of the manager list. -/
theorem eraseP_type_nodup (m : List PowerUp) (t : PowerUpType)
    (hU : (m.map PowerUp.type).Nodup) :
    ((m.eraseP (fun q => q.type == t)).map PowerUp.type).Nodup :=
  ((List.eraseP_sublist m).map PowerUp.type).nodup hU

/-- In a type-unique manager list, find? locates exactly the member of the
requested type. -/
theorem find_type_unique (m : List PowerUp) (t : PowerUpType) (p : PowerUp)
    (hU : (m.map PowerUp.type).Nodup) (hp : p ∈ m) (ht : p.type = t) :
    m.find? (fun q => q.type == t) = some p := by
  induction m with
  | nil => cases hp
  | cons q rest ih =>
      simp only [List.map_cons, List.nodup_cons] at hU
      rcases List.mem_cons.1 hp with h | h
      · subst h
        rw [List.find?_cons_of_pos _ (by simp [ht])]
      · have hq : q.type ≠ t := fun hqt =>
          hU.1 (by rw [hqt, ← ht]; exact List.mem_map_of_mem PowerUp.type h)
        rw [List.find?_cons_of_neg _ (by simp [hq])]
        exact ih hU.2 h

/-- Claim C2: activating a power-up type leaves exactly one entry of that
type, whose remaining time is the full duration (never the sum of old and
new), leaves all other types untouched, preserves per-type uniqueness, and
fires a deactivate notification for a previously active entry of the type
before the activate notification of the fresh one. -/
theorem C2_powerup_replaces_never_stacks (m : List PowerUp) (t : PowerUpType) (d : ℚ)
    (hU : (m.map PowerUp.type).Nodup) :
    ((PowerUpManager.activatePowerUp m t d).1.filter (fun p => p.type == t) =
        [{ type := t, duration := d, active := true, timeLeft := d }]) ∧
    ((PowerUpManager.activatePowerUp m t d).1.filter (fun p => !(p.type == t)) =
        m.filter (fun p => !(p.type == t))) ∧
    (((PowerUpManager.activatePowerUp m t d).1.map PowerUp.type).Nodup) ∧
    (∀ p ∈ m, p.type = t →
        (PowerUpManager.activatePowerUp m t d).2 =
          [PMEvent.deactivateE { p with active := false, timeLeft := 0 },
           PMEvent.activateE { type := t, duration := d, active := true, timeLeft := d }]) ∧
    ((∀ p ∈ m, p.type ≠ t) →
        (PowerUpManager.activatePowerUp m t d).2 =
          [PMEvent.activateE { type := t, duration := d, active := true, timeLeft := d }]) := by
  obtain hA | hA := Bool.eq_false_or_eq_true (m.any (fun p => p.type == t))
  · -- an entry of this type was active: it is replaced
    obtain ⟨p0, hp0m, hp0b⟩ := List.any_eq_true.1 hA
    have hp0t : p0.type = t := by simpa using hp0b
    have hfind := find_type_unique m t p0 hU hp0m hp0t
    have hact : PowerUpManager.activatePowerUp m t d =
        (m.eraseP (fun q => q.type == t) ++
           [{ type := t, duration := d, active := true, timeLeft := d }],
         [PMEvent.deactivateE { p0 with active := false, timeLeft := 0 },
          PMEvent.activateE { type := t, duration := d, active := true, timeLeft := d }]) := by
      simp [PowerUpManager.activatePowerUp, PowerUpManager.deactivatePowerUp, hA, hfind]
    have hnotin : t ∉ (m.eraseP (fun q => q.type == t)).map PowerUp.type := by
      intro hmem
      obtain ⟨q, hq, hqt⟩ := List.mem_map.1 hmem
      exact (List.filter_eq_nil_iff.1 (eraseP_type_filter_nil m t hU) q hq) (by simp [hqt])
    refine ⟨?_, ?_, ?_, ?_, ?_⟩
    · rw [hact]
      simp [List.filter_append, eraseP_type_filter_nil m t hU]
    · rw [hact]
      simp [List.filter_append, eraseP_type_filter_other m t]
    · rw [hact, List.map_append]
      exact List.Nodup.append (eraseP_type_nodup m t hU) (List.nodup_singleton t)
        (List.disjoint_singleton.2 hnotin)
    · intro p hpm hpt
      have hp : p = p0 := by
        have h1 := find_type_unique m t p hU hpm hpt
        exact Option.some.inj (h1.symm.trans hfind)
      rw [hact, hp]
    · intro h
      exact ((h p0 hp0m) hp0t).elim
  · -- no entry of this type was present
    have hnone : ∀ p ∈ m, ¬(p.type = t) := by
      intro p hpm hpt
      exact (List.any_eq_false.1 hA p hpm) (by simp [hpt])
    have hact : PowerUpManager.activatePowerUp m t d =
        (m ++ [{ type := t, duration := d, active := true, timeLeft := d }],
         [PMEvent.activateE { type := t, duration := d, active := true, timeLeft := d }]) := by
      simp [PowerUpManager.activatePowerUp, hA]
    have hfilt : m.filter (fun p => p.type == t) = [] := by
      rw [List.filter_eq_nil_iff]
      intro p hpm
      simp [hnone p hpm]
    have hnotin : t ∉ m.map PowerUp.type := by
      intro hmem
      obtain ⟨q, hq, hqt⟩ := List.mem_map.1 hmem
      exact hnone q hq hqt
    refine ⟨?_, ?_, ?_, ?_, ?_⟩
    · rw [hact]
      simp [List.filter_append, hfilt]
    · rw [hact]
      simp [List.filter_append]
    · rw [hact, List.map_append]
      exact List.Nodup.append hU (List.nodup_singleton t)
        (List.disjoint_singleton.2 hnotin)
    · intro p hpm hpt
      exact ((hnone p hpm) hpt).elim
    · intro _
      rw [hact]

/-- Witness for C2: re-activating the already-active slow effect (4 s left)
replaces it by a fresh 10 s entry and fires the deactivate notification. -/
theorem C2_powerup_replaces_never_stacks_witness :
    (([pmSlow].map PowerUp.type).Nodup) ∧ pmSlow ∈ [pmSlow] ∧ pmSlow.type = .slow ∧
    ((PowerUpManager.activatePowerUp [pmSlow] .slow 10).1.filter (fun p => p.type == .slow) =
        [{ type := .slow, duration := 10, active := true, timeLeft := 10 }]) ∧
    ((PowerUpManager.activatePowerUp [pmSlow] .slow 10).2 =
        [PMEvent.deactivateE { pmSlow with active := false, timeLeft := 0 },
         PMEvent.activateE { type := .slow, duration := 10, active := true, timeLeft := 10 }]) :=
  ⟨by decide, List.mem_singleton.2 rfl, rfl,
   (C2_powerup_replaces_never_stacks [pmSlow] .slow 10 (by decide)).1,
   (C2_powerup_replaces_never_stacks [pmSlow] .slow 10 (by decide)).2.2.2.1 pmSlow
     (List.mem_singleton.2 rfl) rfl⟩

/-- Claim C3: popping a bomb while the defuser is active leaves lives
unchanged and awards the flat consolation point (times the score
multiplier, like every score addition); while the defuser is inactive it
costs exactly one life, resets the combo and leaves the score unchanged. -/
theorem C3_bomb_pop (env : Env) (e : GameEngine) (b : Balloon) (i : ℕ)
    (hb : b.type = .bomb) :
    (PowerUpManager.isDefuserActive e.powerUps = true →
       (GameEngine.popBalloon env e b i).1.state.lives = e.state.lives ∧
       (GameEngine.popBalloon env e b i).1.state.score =
         e.state.score + 1 * PowerUpManager.getScoreMultiplier e.powerUps) ∧
    (PowerUpManager.isDefuserActive e.powerUps = false →
       (GameEngine.popBalloon env e b i).1.state.lives = e.state.lives - 1 ∧
       (GameEngine.popBalloon env e b i).1.comboCount = 0 ∧
       (GameEngine.popBalloon env e b i).1.comboTimer = 0 ∧
       (GameEngine.popBalloon env e b i).1.state.score = e.state.score) := by
  constructor
  · intro hd
    simp [GameEngine.popBalloon, hb, hd, GameEngine.addScore]
  · intro hd
    simp [GameEngine.popBalloon, hb, hd, GameEngine.loseLife, GameEngine.resetCombo]

/-- Witness for C3: popping a concrete bomb on a running engine without any
active power-up costs one life, resets the combo and leaves the score. -/
theorem C3_bomb_pop_witness :
    bombBalloon.type = .bomb ∧
    PowerUpManager.isDefuserActive c4Engine.powerUps = false ∧
    ((GameEngine.popBalloon env0 c4Engine bombBalloon 0).1.state.lives =
        c4Engine.state.lives - 1 ∧
     (GameEngine.popBalloon env0 c4Engine bombBalloon 0).1.comboCount = 0 ∧
     (GameEngine.popBalloon env0 c4Engine bombBalloon 0).1.comboTimer = 0 ∧
     (GameEngine.popBalloon env0 c4Engine bombBalloon 0).1.state.score =
        c4Engine.state.score) :=
  ⟨rfl, rfl, (C3_bomb_pop env0 c4Engine bombBalloon 0 rfl).2 rfl⟩

/-- Claim C7: popping a heart changes neither score nor combo counter nor
combo timer; lives become min(lives + 1, maxLives) — so capped at the
maximum, unchanged when already at the maximum, and incremented by exactly
one whenever lives (an integer in every reachable state) are below the
maximum. -/
theorem C7_heart_pop (env : Env) (e : GameEngine) (b : Balloon) (i : ℕ)
    (hb : b.type = .heart) :
    (GameEngine.popBalloon env e b i).1.state.score = e.state.score ∧
    (GameEngine.popBalloon env e b i).1.comboCount = e.comboCount ∧
    (GameEngine.popBalloon env e b i).1.comboTimer = e.comboTimer ∧
    (GameEngine.popBalloon env e b i).1.state.lives =
      min (e.state.lives + 1) e.config.maxLives ∧
    (GameEngine.popBalloon env e b i).1.state.lives ≤ e.config.maxLives ∧
    (e.state.lives = e.config.maxLives →
      (GameEngine.popBalloon env e b i).1.state.lives = e.state.lives) ∧
    (∀ n m : ℤ, e.state.lives = n → e.config.maxLives = m →
      e.state.lives < e.config.maxLives →
      (GameEngine.popBalloon env e b i).1.state.lives = e.state.lives + 1) := by
  have hpop : (GameEngine.popBalloon env e b i).1.state.lives =
      min (e.state.lives + 1) e.config.maxLives := by
    simp [GameEngine.popBalloon, hb, GameEngine.gainLife]
  refine ⟨?_, ?_, ?_, hpop, ?_, ?_, ?_⟩
  · simp [GameEngine.popBalloon, hb, GameEngine.gainLife]
  · simp [GameEngine.popBalloon, hb, GameEngine.gainLife]
  · simp [GameEngine.popBalloon, hb, GameEngine.gainLife]
  · rw [hpop]
    exact min_le_right _ _
  · intro hmax
    rw [hpop, hmax]
    exact min_eq_right (by linarith)
  · intro n m hn hm hlt
    rw [hpop]
    have hnm : n < m := by
      rw [hn, hm] at hlt
      exact_mod_cast hlt
    have h1 : (n : ℚ) + 1 ≤ (m : ℚ) := by exact_mod_cast Int.add_one_le_iff.2 hnm
    rw [hn, hm]
    exact min_eq_left h1

/-- Witness for C7: popping a concrete heart at full lives keeps lives at
the maximum. -/
theorem C7_heart_pop_witness :
    heartBalloon.type = .heart ∧
    (GameEngine.popBalloon env0 engine0 heartBalloon 0).1.state.lives =
      min (engine0.state.lives + 1) engine0.config.maxLives ∧
    (engine0.state.lives = engine0.config.maxLives →
      (GameEngine.popBalloon env0 engine0 heartBalloon 0).1.state.lives =
        engine0.state.lives) :=
  ⟨rfl, (C7_heart_pop env0 engine0 heartBalloon 0 rfl).2.2.2.1,
   (C7_heart_pop env0 engine0 heartBalloon 0 rfl).2.2.2.2.2.1⟩

/-- Applying n loseLife calls decrements lives by exactly n. -/
theorem applyLosses_lives (n : ℕ) (e : GameEngine) :
    (GameEngine.applyLosses e n).1.state.lives = e.state.lives - n := by
  induction n generalizing e with
  | zero => simp [GameEngine.applyLosses]
  | succ k ih =>
      simp only [GameEngine.applyLosses, GameEngine.loseLife, GameEngine.resetCombo]
      rw [ih]
      push_cast
      ring

/-- The culling scan removes exactly the off-screen-or-expired balloons and
charges one penalty for each culled balloon that is on screen (hence culled
for expiry) and neither a bomb nor a heart. -/
theorem runCull_spec (H tnow : ℚ) (bs : List Balloon) :
    (runCull H tnow bs).2 = bs.countP (fun b =>
        !(b.isOffScreen H) && b.isExpired tnow &&
        !(b.type == BalloonType.bomb) && !(b.type == BalloonType.heart)) ∧
    (runCull H tnow bs).1 = bs.filter (fun b =>
        !(b.isOffScreen H || b.isExpired tnow)) := by
  induction bs with
  | nil => simp [runCull]
  | cons b rest ih =>
      obtain ⟨ih1, ih2⟩ := ih
      cases hoff : b.isOffScreen H with
      | true =>
          simp [runCull, hoff, List.countP_cons, List.filter_cons, ih1, ih2]
      | false =>
          cases hexp : b.isExpired tnow with
          | false =>
              simp [runCull, hoff, hexp, List.countP_cons, List.filter_cons, ih1, ih2]
          | true =>
              simp only [runCull, hoff, hexp, List.countP_cons, List.filter_cons,
                ih1, ih2, Bool.false_or, Bool.true_and, Bool.and_true, Bool.not_false,
                Bool.not_true, Bool.false_and, Bool.or_true, if_false]
              split_ifs <;> simp_all

/-- Claim C1: in an update tick, a balloon culled because it exited off the
top edge costs no life, while a balloon culled for elapsed lifespan without
having exited costs exactly one life unless it is a bomb or a heart; the
lives counter drops by exactly the number of such penalized balloons. -/
theorem C1_exit_unpenalized_expiry_costs_life (env : Env) (e : GameEngine) (dt now : ℚ) :
    (∀ (H tnow : ℚ) (bs : List Balloon),
        (runCull H tnow bs).2 = bs.countP (fun b =>
            !(b.isOffScreen H) && b.isExpired tnow &&
            !(b.type == BalloonType.bomb) && !(b.type == BalloonType.heart)) ∧
        (runCull H tnow bs).1 = bs.filter (fun b =>
            !(b.isOffScreen H || b.isExpired tnow))) ∧
    (GameEngine.updateBalloons env e dt now).1.state.lives =
      e.state.lives -
        ((e.balloons.map (fun b =>
            Balloon.update env b now dt
              (PowerUpManager.isFreezeActive e.powerUps)
              (PowerUpManager.isActive e.powerUps .slow)
              (PowerUpManager.isMagnetActive e.powerUps)
              e.dimensions.width e.dimensions.height)).countP (fun b =>
          !(b.isOffScreen e.dimensions.height) && b.isExpired now &&
          !(b.type == BalloonType.bomb) && !(b.type == BalloonType.heart)) : ℕ) := by
  refine ⟨runCull_spec, ?_⟩
  simp only [GameEngine.updateBalloons]
  rw [applyLosses_lives]
  rw [(runCull_spec e.dimensions.height now _).1]

/-- The deterministic environment env0 is well formed. -/
theorem envOK_env0 : EnvOK env0 := by
  refine ⟨fun n => ⟨by norm_num [env0], by norm_num [env0]⟩,
    fun t => by norm_num [env0], fun t => by norm_num [env0]⟩

/-- The environment env6 is well formed. -/
theorem envOK_env6 : EnvOK env6 := by
  refine ⟨fun n => ?_, fun t => by norm_num [env6], fun t => by norm_num [env6]⟩
  rcases eq_or_ne n 0 with h | h <;> simp [env6, h] <;> norm_num

/-- Claim C6 (amended): the spawn category is drawn bomb-first, then — with
the power-up probability — by a uniform index into the seven-entry
powerupTypes array (slow, multiplier, freeze, magnet, defuser, heart,
special), and otherwise is normal.  The index is floor(u * 7) for the next
uniform draw u, so each of the seven entries is selected exactly on an
interval of length 1/7. -/
theorem C6_type_draw_amended (env : Env) (i : ℕ) (bc pc : ℚ) (hE : EnvOK env) :
    (env.rand i < bc →
       Balloon.selectBalloonType env i bc pc = (.bomb, i + 1)) ∧
    (¬ env.rand i < bc → env.rand i < bc + pc →
       (Balloon.selectBalloonType env i bc pc).1 =
         powerupTypes.getD (⌊env.rand (i + 1) * (powerupTypes.length : ℚ)⌋.toNat) .normal ∧
       ⌊env.rand (i + 1) * (powerupTypes.length : ℚ)⌋.toNat < powerupTypes.length ∧
       (Balloon.selectBalloonType env i bc pc).1 ∈ powerupTypes ∧
       (∀ k : ℕ, k < powerupTypes.length →
         (⌊env.rand (i + 1) * (powerupTypes.length : ℚ)⌋.toNat = k ↔
           (k : ℚ) / 7 ≤ env.rand (i + 1) ∧ env.rand (i + 1) < ((k : ℚ) + 1) / 7))) ∧
    (¬ env.rand i < bc → ¬ env.rand i < bc + pc →
       Balloon.selectBalloonType env i bc pc = (.normal, i + 1)) := by
  refine ⟨?_, ?_, ?_⟩
  · intro h
    simp [Balloon.selectBalloonType, h]
  · intro h1 h2
    have hsel : (Balloon.selectBalloonType env i bc pc).1 =
        powerupTypes.getD (⌊env.rand (i + 1) * (powerupTypes.length : ℚ)⌋.toNat) .normal := by
      simp [Balloon.selectBalloonType, h1, h2]
    have hu0 : 0 ≤ env.rand (i + 1) := (hE.1 (i + 1)).1
    have hu1 : env.rand (i + 1) < 1 := (hE.1 (i + 1)).2
    have hlen : (powerupTypes.length : ℚ) = 7 := by norm_num [powerupTypes]
    have hnn : 0 ≤ ⌊env.rand (i + 1) * (powerupTypes.length : ℚ)⌋ :=
      Int.floor_nonneg.2 (by rw [hlen]; positivity)
    have hlt : ⌊env.rand (i + 1) * (powerupTypes.length : ℚ)⌋ < 7 := by
      apply Int.floor_lt.2
      rw [hlen]
      push_cast
      nlinarith
    have htn : ⌊env.rand (i + 1) * (powerupTypes.length : ℚ)⌋.toNat < powerupTypes.length := by
      have h7 : powerupTypes.length = 7 := by norm_num [powerupTypes]
      omega
    have hmem : ∀ n, n < powerupTypes.length →
        powerupTypes.getD n .normal ∈ powerupTypes := by decide
    refine ⟨hsel, htn, by rw [hsel]; exact hmem _ htn, ?_⟩
    intro k hk
    rw [hlen]
    constructor
    · intro hkk
      have hnn7 : 0 ≤ ⌊env.rand (i + 1) * 7⌋ := by rw [← hlen]; exact hnn
      have hfl : ⌊env.rand (i + 1) * 7⌋ = (k : ℤ) := by omega
      obtain ⟨hl, hr2⟩ := Int.floor_eq_iff.1 hfl
      constructor
      · rw [div_le_iff₀ (by norm_num : (0:ℚ) < 7)]
        exact_mod_cast hl
      · rw [lt_div_iff₀ (by norm_num : (0:ℚ) < 7)]
        push_cast at hr2
        linarith
    · rintro ⟨hl, hr2⟩
      rw [div_le_iff₀ (by norm_num : (0:ℚ) < 7)] at hl
      rw [lt_div_iff₀ (by norm_num : (0:ℚ) < 7)] at hr2
      have hfl : ⌊env.rand (i + 1) * 7⌋ = (k : ℤ) := by
        apply Int.floor_eq_iff.2
        constructor
        · exact_mod_cast hl
        · push_cast
          linarith
      omega
  · intro h1 h2
    simp [Balloon.selectBalloonType, h1, h2]

/-- Witness for the amended C6: under env0 the first draw (1/2) skips both
the bomb and the power-up branches of the easy profile, so the spawn is
normal. -/
theorem C6_type_draw_amended_witness :
    EnvOK env0 ∧
    ¬ env0.rand 0 < DEFAULT_GAME_CONFIG.bombChance .easy ∧
    ¬ env0.rand 0 < DEFAULT_GAME_CONFIG.bombChance .easy +
        DEFAULT_GAME_CONFIG.powerupChance .easy ∧
    Balloon.selectBalloonType env0 0 (DEFAULT_GAME_CONFIG.bombChance .easy)
        (DEFAULT_GAME_CONFIG.powerupChance .easy) = (.normal, 1) :=
  ⟨envOK_env0, by norm_num [env0, DEFAULT_GAME_CONFIG],
   by norm_num [env0, DEFAULT_GAME_CONFIG],
   (C6_type_draw_amended env0 0 (DEFAULT_GAME_CONFIG.bombChance .easy)
       (DEFAULT_GAME_CONFIG.powerupChance .easy) envOK_env0).2.2
     (by norm_num [env0, DEFAULT_GAME_CONFIG])
     (by norm_num [env0, DEFAULT_GAME_CONFIG])⟩

/-- Counterexample to C6 as stated: a draw that lands in the power-up branch
can produce a heart, which is not one of the five power-up categories
(slow, multiplier, freeze, magnet, defuser). -/
theorem C6_powerup_pool_counterexample :
    EnvOK env6 ∧
    ¬ env6.rand 0 < DEFAULT_GAME_CONFIG.bombChance .easy ∧
    env6.rand 0 < DEFAULT_GAME_CONFIG.bombChance .easy +
        DEFAULT_GAME_CONFIG.powerupChance .easy ∧
    (Balloon.selectBalloonType env6 0 (DEFAULT_GAME_CONFIG.bombChance .easy)
        (DEFAULT_GAME_CONFIG.powerupChance .easy)).1 = .heart ∧
    BalloonType.heart ∉
      [BalloonType.slow, BalloonType.multiplier, BalloonType.freeze,
       BalloonType.magnet, BalloonType.defuser] := by
  refine ⟨envOK_env6, ?_, ?_, ?_, by decide⟩
  · norm_num [env6, DEFAULT_GAME_CONFIG]
  · norm_num [env6, DEFAULT_GAME_CONFIG]
  · norm_num [Balloon.selectBalloonType, env6, DEFAULT_GAME_CONFIG, powerupTypes,
      List.getD]
    decide

/-- Claim C5 (code bug): the difficulty passed to startGame is discarded —
updateDifficulty is an empty stub and getCurrentDifficulty is hard-coded to
easy — so after startGame(hard) an update at t = 300, which exceeds the hard
profile's 250 ms spawn interval, still spawns nothing, because spawning
consults the easy profile's 600 ms interval. -/
theorem C5_difficulty_argument_ignored :
    GameEngine.getCurrentDifficulty ((step env0 engine0 (Cmd.start 0 .hard)).1) =
      Difficulty.easy ∧
    GameEngine.updateDifficulty engine0 .hard = engine0 ∧
    DEFAULT_GAME_CONFIG.spawnRate .hard = 250 ∧
    ((300 : ℚ) - 0 > DEFAULT_GAME_CONFIG.spawnRate .hard) ∧
    DEFAULT_GAME_CONFIG.spawnRate .easy = 600 ∧
    (step env0 ((step env0 engine0 (Cmd.start 0 .hard)).1) (Cmd.update 300)).1.balloons
      = [] := by
  refine ⟨rfl, rfl, by norm_num [DEFAULT_GAME_CONFIG], by norm_num [DEFAULT_GAME_CONFIG],
    by norm_num [DEFAULT_GAME_CONFIG], ?_⟩
  norm_num [step, GameEngine.update, GameEngine.tickCombo, GameEngine.checkGameOver,
    GameEngine.startGame, GameEngine.resetGame,
    GameEngine.updateDifficulty, GameEngine.spawnBalloons, GameEngine.getCurrentDifficulty,
    GameEngine.updateBalloons, runCull, GameEngine.applyLosses, ParticleSystem.update,
    PowerUpManager.update, PowerUpManager.clearAll, PowerUpManager.isFreezeActive,
    PowerUpManager.isActive, PowerUpManager.isMagnetActive, GameEngine.gameOverStep,
    engine0, mkEngine, dims0, DEFAULT_GAME_CONFIG]

/-- Popping a normal balloon with the multiplier inactive: the score grows by
the base point value plus the comboCount * 10 bonus once the incremented
combo exceeds 1; combo restarts its countdown; lives, power-ups, phase,
config and dimensions are untouched and the balloon is removed. -/
theorem popNormal_step (env : Env) (e : GameEngine) (b : Balloon) (i : ℕ)
    (hb : b.type = .normal)
    (hm : PowerUpManager.isActive e.powerUps .multiplier = false) :
    (GameEngine.popBalloon env e b i).1.state.score =
      e.state.score + 1 +
        (if e.comboCount + 1 > 1 then ((e.comboCount : ℚ) + 1) * 10 else 0) ∧
    (GameEngine.popBalloon env e b i).1.comboCount = e.comboCount + 1 ∧
    (GameEngine.popBalloon env e b i).1.comboTimer = e.config.comboTimeout / 1000 ∧
    (GameEngine.popBalloon env e b i).1.state.lives = e.state.lives ∧
    (GameEngine.popBalloon env e b i).1.state.running = e.state.running ∧
    (GameEngine.popBalloon env e b i).1.powerUps = e.powerUps ∧
    (GameEngine.popBalloon env e b i).1.balloons = e.balloons.eraseIdx i ∧
    (GameEngine.popBalloon env e b i).1.config = e.config ∧
    (GameEngine.popBalloon env e b i).1.dimensions = e.dimensions := by
  have hmult : PowerUpManager.getScoreMultiplier e.powerUps = 1 := by
    simp [PowerUpManager.getScoreMultiplier, hm]
  by_cases hc : e.comboCount + 1 > 1
  · refine ⟨?_, ?_, ?_, ?_, ?_, ?_, ?_, ?_, ?_⟩ <;>
      simp [GameEngine.popBalloon, hb, GameEngine.incrementCombo, GameEngine.addScore,
        hmult, hc, Balloon.getPoints, BALLOON_TYPES_points]
  · refine ⟨?_, ?_, ?_, ?_, ?_, ?_, ?_, ?_, ?_⟩ <;>
      simp [GameEngine.popBalloon, hb, GameEngine.incrementCombo, GameEngine.addScore,
        hmult, hc, Balloon.getPoints, BALLOON_TYPES_points]

/-- Claim C4: from score 0 and combo 0 with no multiplier active, five taps
popping five normal balloons with no update in between yield score 145
(5 base points plus bonuses 20+30+40+50) and combo count 5; in general each
normal pop adds the base value and, once the incremented combo count
exceeds 1, an additional comboCount * 10 bonus. -/
theorem C4_five_normal_pops_scoring :
    (run env0 c4Engine c4Cmds).state.score = 145 ∧
    (run env0 c4Engine c4Cmds).comboCount = 5 ∧
    (∀ (env : Env) (e : GameEngine) (b : Balloon) (i : ℕ),
       b.type = .normal →
       PowerUpManager.isActive e.powerUps .multiplier = false →
       (GameEngine.popBalloon env e b i).1.state.score =
         e.state.score + 1 +
           (if e.comboCount + 1 > 1 then ((e.comboCount : ℚ) + 1) * 10 else 0) ∧
       (GameEngine.popBalloon env e b i).1.comboCount = e.comboCount + 1) := by
  have hm0 : PowerUpManager.isActive c4Engine.powerUps .multiplier = false := rfl
  have hrun0 : c4Engine.state.running = true := rfl
  -- pop 1
  have hfind1 : findHit c4Engine.balloons 100 500 = some (0, c4Balloon 1) := by
    norm_num [c4Engine, engine0, mkEngine, dims0, c4Balloon, findHit,
      Balloon.containsPoint]
  have hs1 : step env0 c4Engine (Cmd.input 100 500) =
      GameEngine.popBalloon env0 c4Engine (c4Balloon 1) 0 := by
    simp [step, GameEngine.handleInput, hfind1, hrun0]
  set A1 := (GameEngine.popBalloon env0 c4Engine (c4Balloon 1) 0).1 with hA1
  obtain ⟨g1s, g1c, _, _, g1r, g1p, g1b, _, _⟩ :=
    popNormal_step env0 c4Engine (c4Balloon 1) 0 rfl hm0
  have f1s : A1.state.score = 1 := by
    rw [← hA1] at g1s
    rw [g1s]
    norm_num [c4Engine, engine0, mkEngine]
  have f1c : A1.comboCount = 1 := by
    rw [← hA1] at g1c
    rw [g1c]
    rfl
  have f1b : A1.balloons = [c4Balloon 2, c4Balloon 3, c4Balloon 4, c4Balloon 5] := by
    rw [← hA1] at g1b
    rw [g1b]
    rfl
  have f1r : A1.state.running = true := by
    rw [← hA1] at g1r
    rw [g1r]
    rfl
  have f1p : A1.powerUps = [] := by
    rw [← hA1] at g1p
    rw [g1p]
    rfl
  have hm1 : PowerUpManager.isActive A1.powerUps .multiplier = false := by
    rw [f1p]
    rfl
  -- pop 2
  have hfind2 : findHit A1.balloons 200 500 = some (0, c4Balloon 2) := by
    rw [f1b]
    norm_num [findHit, Balloon.containsPoint, c4Balloon]
  have hs2 : step env0 A1 (Cmd.input 200 500) =
      GameEngine.popBalloon env0 A1 (c4Balloon 2) 0 := by
    simp [step, GameEngine.handleInput, hfind2, f1r]
  set A2 := (GameEngine.popBalloon env0 A1 (c4Balloon 2) 0).1 with hA2
  obtain ⟨g2s, g2c, _, _, g2r, g2p, g2b, _, _⟩ :=
    popNormal_step env0 A1 (c4Balloon 2) 0 rfl hm1
  have f2s : A2.state.score = 22 := by
    rw [← hA2] at g2s
    rw [g2s, f1s, f1c]
    norm_num
  have f2c : A2.comboCount = 2 := by
    rw [← hA2] at g2c
    rw [g2c, f1c]
  have f2b : A2.balloons = [c4Balloon 3, c4Balloon 4, c4Balloon 5] := by
    rw [← hA2] at g2b
    rw [g2b, f1b]
    rfl
  have f2r : A2.state.running = true := by
    rw [← hA2] at g2r
    rw [g2r, f1r]
  have f2p : A2.powerUps = [] := by
    rw [← hA2] at g2p
    rw [g2p, f1p]
  have hm2 : PowerUpManager.isActive A2.powerUps .multiplier = false := by
    rw [f2p]
    rfl
  -- pop 3
  have hfind3 : findHit A2.balloons 300 500 = some (0, c4Balloon 3) := by
    rw [f2b]
    norm_num [findHit, Balloon.containsPoint, c4Balloon]
  have hs3 : step env0 A2 (Cmd.input 300 500) =
      GameEngine.popBalloon env0 A2 (c4Balloon 3) 0 := by
    simp [step, GameEngine.handleInput, hfind3, f2r]
  set A3 := (GameEngine.popBalloon env0 A2 (c4Balloon 3) 0).1 with hA3
  obtain ⟨g3s, g3c, _, _, g3r, g3p, g3b, _, _⟩ :=
    popNormal_step env0 A2 (c4Balloon 3) 0 rfl hm2
  have f3s : A3.state.score = 53 := by
    rw [← hA3] at g3s
    rw [g3s, f2s, f2c]
    norm_num
  have f3c : A3.comboCount = 3 := by
    rw [← hA3] at g3c
    rw [g3c, f2c]
  have f3b : A3.balloons = [c4Balloon 4, c4Balloon 5] := by
    rw [← hA3] at g3b
    rw [g3b, f2b]
    rfl
  have f3r : A3.state.running = true := by
    rw [← hA3] at g3r
    rw [g3r, f2r]
  have f3p : A3.powerUps = [] := by
    rw [← hA3] at g3p
    rw [g3p, f2p]
  have hm3 : PowerUpManager.isActive A3.powerUps .multiplier = false := by
    rw [f3p]
    rfl
  -- pop 4
  have hfind4 : findHit A3.balloons 400 500 = some (0, c4Balloon 4) := by
    rw [f3b]
    norm_num [findHit, Balloon.containsPoint, c4Balloon]
  have hs4 : step env0 A3 (Cmd.input 400 500) =
      GameEngine.popBalloon env0 A3 (c4Balloon 4) 0 := by
    simp [step, GameEngine.handleInput, hfind4, f3r]
  set A4 := (GameEngine.popBalloon env0 A3 (c4Balloon 4) 0).1 with hA4
  obtain ⟨g4s, g4c, _, _, g4r, g4p, g4b, _, _⟩ :=
    popNormal_step env0 A3 (c4Balloon 4) 0 rfl hm3
  have f4s : A4.state.score = 94 := by
    rw [← hA4] at g4s
    rw [g4s, f3s, f3c]
    norm_num
  have f4c : A4.comboCount = 4 := by
    rw [← hA4] at g4c
    rw [g4c, f3c]
  have f4b : A4.balloons = [c4Balloon 5] := by
    rw [← hA4] at g4b
    rw [g4b, f3b]
    rfl
  have f4r : A4.state.running = true := by
    rw [← hA4] at g4r
    rw [g4r, f3r]
  have f4p : A4.powerUps = [] := by
    rw [← hA4] at g4p
    rw [g4p, f3p]
  have hm4 : PowerUpManager.isActive A4.powerUps .multiplier = false := by
    rw [f4p]
    rfl
  -- pop 5
  have hfind5 : findHit A4.balloons 500 500 = some (0, c4Balloon 5) := by
    rw [f4b]
    norm_num [findHit, Balloon.containsPoint, c4Balloon]
  have hs5 : step env0 A4 (Cmd.input 500 500) =
      GameEngine.popBalloon env0 A4 (c4Balloon 5) 0 := by
    simp [step, GameEngine.handleInput, hfind5, f4r]
  set A5 := (GameEngine.popBalloon env0 A4 (c4Balloon 5) 0).1 with hA5
  obtain ⟨g5s, g5c, _, _, _, _, _, _, _⟩ :=
    popNormal_step env0 A4 (c4Balloon 5) 0 rfl hm4
  have f5s : A5.state.score = 145 := by
    rw [← hA5] at g5s
    rw [g5s, f4s, f4c]
    norm_num
  have f5c : A5.comboCount = 5 := by
    rw [← hA5] at g5c
    rw [g5c, f4c]
  have hrun : run env0 c4Engine c4Cmds = A5 := by
    simp only [run, c4Cmds, List.foldl_cons, List.foldl_nil]
    rw [hs1, ← hA1, hs2, ← hA2, hs3, ← hA3, hs4, ← hA4, hs5, ← hA5]
  refine ⟨by rw [hrun, f5s], by rw [hrun, f5c], ?_⟩
  intro env e b i hb hm
  exact ⟨(popNormal_step env e b i hb hm).1, (popNormal_step env e b i hb hm).2.1⟩

/-- Witness for C4's general clause at the first concrete pop. -/
theorem C4_five_normal_pops_scoring_witness :
    (c4Balloon 1).type = .normal ∧
    PowerUpManager.isActive c4Engine.powerUps .multiplier = false ∧
    ((GameEngine.popBalloon env0 c4Engine (c4Balloon 1) 0).1.state.score =
       c4Engine.state.score + 1 +
         (if c4Engine.comboCount + 1 > 1 then ((c4Engine.comboCount : ℚ) + 1) * 10 else 0) ∧
     (GameEngine.popBalloon env0 c4Engine (c4Balloon 1) 0).1.comboCount =
       c4Engine.comboCount + 1) :=
  ⟨rfl, rfl, C4_five_normal_pops_scoring.2.2 env0 c4Engine (c4Balloon 1) 0 rfl rfl⟩

/-- spawnBalloons never touches the session state. -/
theorem spawnBalloons_state (env : Env) (e : GameEngine) (t : ℚ) :
    (GameEngine.spawnBalloons env e t).state = e.state := by
  unfold GameEngine.spawnBalloons
  dsimp only
  by_cases hc : t - e.lastSpawnTime > e.config.spawnRate e.getCurrentDifficulty
  · rw [if_pos hc]
  · rw [if_neg hc]

/-- spawnBalloons never touches the configuration. -/
theorem spawnBalloons_config (env : Env) (e : GameEngine) (t : ℚ) :
    (GameEngine.spawnBalloons env e t).config = e.config := by
  unfold GameEngine.spawnBalloons
  dsimp only
  by_cases hc : t - e.lastSpawnTime > e.config.spawnRate e.getCurrentDifficulty
  · rw [if_pos hc]
  · rw [if_neg hc]

/-- Repeated loseLife calls never touch the configuration. -/
theorem applyLosses_config (n : ℕ) (e : GameEngine) :
    (GameEngine.applyLosses e n).1.config = e.config := by
  induction n generalizing e with
  | zero => rfl
  | succ k ih =>
      simp [GameEngine.applyLosses, GameEngine.loseLife, GameEngine.resetCombo, ih]

/-- The balloon move-and-cull pass can only decrease lives. -/
theorem updateBalloons_lives_le (env : Env) (e : GameEngine) (dt now : ℚ) :
    (GameEngine.updateBalloons env e dt now).1.state.lives ≤ e.state.lives := by
  simp only [GameEngine.updateBalloons]
  rw [applyLosses_lives]
  simp

/-- The balloon move-and-cull pass never touches the configuration. -/
theorem updateBalloons_config (env : Env) (e : GameEngine) (dt now : ℚ) :
    (GameEngine.updateBalloons env e dt now).1.config = e.config := by
  simp only [GameEngine.updateBalloons]
  rw [applyLosses_config]

/-- tickCombo never touches the session state. -/
theorem tickCombo_state (e : GameEngine) (dt : ℚ) :
    (GameEngine.tickCombo e dt).state = e.state := by
  unfold GameEngine.tickCombo
  split <;> rfl

/-- tickCombo never touches the configuration. -/
theorem tickCombo_config (e : GameEngine) (dt : ℚ) :
    (GameEngine.tickCombo e dt).config = e.config := by
  unfold GameEngine.tickCombo
  split <;> rfl

/-- The game-over check never changes lives. -/
theorem checkGameOver_lives (e : GameEngine) (evs : List GameEvent) :
    (GameEngine.checkGameOver e evs).1.state.lives = e.state.lives := by
  unfold GameEngine.checkGameOver GameEngine.gameOverStep
  split <;> rfl

/-- The game-over check never touches the configuration. -/
theorem checkGameOver_config (e : GameEngine) (evs : List GameEvent) :
    (GameEngine.checkGameOver e evs).1.config = e.config := by
  unfold GameEngine.checkGameOver GameEngine.gameOverStep
  split <;> rfl

/-- An update tick can only decrease lives. -/
theorem update_lives_le (env : Env) (e : GameEngine) (t : ℚ) :
    (GameEngine.update env e t).1.state.lives ≤ e.state.lives := by
  unfold GameEngine.update
  split
  · exact le_refl _
  · dsimp only
    rw [checkGameOver_lives]
    dsimp only
    refine le_trans (updateBalloons_lives_le _ _ _ _) ?_
    rw [spawnBalloons_state, tickCombo_state]

/-- An update tick never touches the configuration. -/
theorem update_config (env : Env) (e : GameEngine) (t : ℚ) :
    (GameEngine.update env e t).1.config = e.config := by
  unfold GameEngine.update
  split
  · rfl
  · dsimp only
    rw [checkGameOver_config]
    dsimp only
    rw [updateBalloons_config, spawnBalloons_config, tickCombo_config]

/-- addScore keeps config and lives. -/
theorem addScore_config (e : GameEngine) (p : ℚ) :
    (GameEngine.addScore e p).1.config = e.config := rfl

/-- addScore keeps lives. -/
theorem addScore_lives (e : GameEngine) (p : ℚ) :
    (GameEngine.addScore e p).1.state.lives = e.state.lives := rfl

/-- incrementCombo keeps config. -/
theorem incrementCombo_config (env : Env) (e : GameEngine) :
    (GameEngine.incrementCombo env e).1.config = e.config := by
  unfold GameEngine.incrementCombo
  dsimp only
  split <;> rfl

/-- incrementCombo keeps lives. -/
theorem incrementCombo_lives (env : Env) (e : GameEngine) :
    (GameEngine.incrementCombo env e).1.state.lives = e.state.lives := by
  unfold GameEngine.incrementCombo
  dsimp only
  split <;> rfl

/-- activatePowerUpE keeps config. -/
theorem activatePowerUpE_config (e : GameEngine) (t : PowerUpType) :
    (GameEngine.activatePowerUpE e t).1.config = e.config := rfl

/-- activatePowerUpE keeps lives. -/
theorem activatePowerUpE_lives (e : GameEngine) (t : PowerUpType) :
    (GameEngine.activatePowerUpE e t).1.state.lives = e.state.lives := rfl

/-- loseLife keeps config. -/
theorem loseLife_config (e : GameEngine) :
    (GameEngine.loseLife e).1.config = e.config := rfl

/-- loseLife decrements lives by one. -/
theorem loseLife_lives (e : GameEngine) :
    (GameEngine.loseLife e).1.state.lives = e.state.lives - 1 := rfl

/-- gainLife keeps config. -/
theorem gainLife_config (e : GameEngine) :
    (GameEngine.gainLife e).1.config = e.config := rfl

/-- gainLife caps lives at the configured maximum. -/
theorem gainLife_lives (e : GameEngine) :
    (GameEngine.gainLife e).1.state.lives = min (e.state.lives + 1) e.config.maxLives := rfl

/-- The power-up pop branch keeps config. -/
theorem popPowerUpCase_config (env : Env) (e1 : GameEngine) (t : PowerUpType) :
    (GameEngine.popBalloon.popPowerUpCase env e1 t).1.config = e1.config := by
  unfold GameEngine.popBalloon.popPowerUpCase
  rw [incrementCombo_config, addScore_config, activatePowerUpE_config]

/-- The power-up pop branch keeps lives. -/
theorem popPowerUpCase_lives (env : Env) (e1 : GameEngine) (t : PowerUpType) :
    (GameEngine.popBalloon.popPowerUpCase env e1 t).1.state.lives = e1.state.lives := by
  unfold GameEngine.popBalloon.popPowerUpCase
  rw [incrementCombo_lives, addScore_lives, activatePowerUpE_lives]

/-- popBalloon never touches the configuration. -/
theorem popBalloon_config (env : Env) (e : GameEngine) (b : Balloon) (i : ℕ) :
    (GameEngine.popBalloon env e b i).1.config = e.config := by
  cases hb : b.type <;>
    simp [GameEngine.popBalloon, hb, incrementCombo_config, addScore_config,
      activatePowerUpE_config, gainLife_config, loseLife_config, popPowerUpCase_config,
      GameEngine.gainLife, GameEngine.loseLife, GameEngine.resetCombo,
      GameEngine.addScore] <;>
    first
      | rfl
      | (split <;> rfl)

/-- popBalloon keeps lives below the configured maximum: every branch either
leaves lives unchanged, decrements them, or applies the gainLife cap. -/
theorem popBalloon_lives_bound (env : Env) (e : GameEngine) (b : Balloon) (i : ℕ)
    (h : e.state.lives ≤ e.config.maxLives) :
    (GameEngine.popBalloon env e b i).1.state.lives ≤ e.config.maxLives := by
  cases hb : b.type
  case heart =>
      simp [GameEngine.popBalloon, hb, GameEngine.gainLife]
  case bomb =>
      by_cases hd : PowerUpManager.isDefuserActive e.powerUps = true
      · simp [GameEngine.popBalloon, hb, hd, GameEngine.addScore]
        exact h
      · simp [GameEngine.popBalloon, hb, hd, GameEngine.loseLife, GameEngine.resetCombo,
          GameEngine.addScore]
        linarith
  all_goals
    simp [GameEngine.popBalloon, hb, incrementCombo_lives, addScore_lives,
      activatePowerUpE_lives, popPowerUpCase_lives, GameEngine.addScore,
      GameEngine.resetCombo]
  all_goals exact h

/-- handleInput never touches the configuration. -/
theorem handleInput_config (env : Env) (e : GameEngine) (x y : ℚ) :
    (GameEngine.handleInput env e x y).1.config = e.config := by
  unfold GameEngine.handleInput
  split
  · rfl
  · rcases hf : findHit e.balloons x y with _ | ⟨i, b⟩
    · simp [hf, GameEngine.resetCombo]
    · simp [hf, popBalloon_config]

/-- handleInput keeps lives below the configured maximum. -/
theorem handleInput_lives_bound (env : Env) (e : GameEngine) (x y : ℚ)
    (h : e.state.lives ≤ e.config.maxLives) :
    (GameEngine.handleInput env e x y).1.state.lives ≤ e.config.maxLives := by
  unfold GameEngine.handleInput
  split
  · exact h
  · rcases hf : findHit e.balloons x y with _ | ⟨i, b⟩
    · simpa [hf, GameEngine.resetCombo] using h
    · simpa [hf] using popBalloon_lives_bound env e b i h

/-- Every API call preserves the configuration. -/
theorem step_config (env : Env) (e : GameEngine) (c : Cmd) :
    (step env e c).1.config = e.config := by
  cases c <;>
    simp [step, update_config, handleInput_config, GameEngine.startGame,
      GameEngine.resetGame, GameEngine.updateDifficulty, GameEngine.pauseGame,
      GameEngine.resumeGame]

/-- Every API call keeps lives below the configured maximum. -/
theorem step_lives_bound (env : Env) (e : GameEngine) (c : Cmd)
    (h : e.state.lives ≤ e.config.maxLives) :
    (step env e c).1.state.lives ≤ (step env e c).1.config.maxLives := by
  rw [step_config]
  cases c
  case start t d =>
      simp [step, GameEngine.startGame, GameEngine.resetGame, GameEngine.updateDifficulty]
  case update t => exact le_trans (update_lives_le env e t) h
  case input x y => exact handleInput_lives_bound env e x y h
  case pause => exact h
  case resume t => exact h
  case reset => simp [step, GameEngine.resetGame]

/-- A whole session preserves the configuration. -/
theorem run_config (env : Env) (cmds : List Cmd) :
    ∀ e : GameEngine, (run env e cmds).config = e.config := by
  induction cmds with
  | nil => intro e; rfl
  | cons c cs ih =>
      intro e
      simp only [run, List.foldl_cons]
      have := ih (step env e c).1
      simp only [run] at this
      rw [this, step_config]

/-- A whole session keeps lives below the configured maximum. -/
theorem run_lives_bound (env : Env) (cmds : List Cmd) :
    ∀ e : GameEngine, e.state.lives ≤ e.config.maxLives →
      (run env e cmds).state.lives ≤ (run env e cmds).config.maxLives := by
  induction cmds with
  | nil => intro e h; exact h
  | cons c cs ih =>
      intro e h
      simp only [run, List.foldl_cons]
      have hs := step_lives_bound env e c h
      have := ih (step env e c).1 hs
      simpa [run] using this

/-- Claim C8 (amended upper bound): over every environment, canvas and call
sequence from a fresh default-config engine, lives never exceed the
configured maximum (the missing half of the claim — the lower bound 0 — is
refuted by the counterexample). -/
theorem C8_lives_upper_bound (env : Env) (dims : GameDimensions) (cmds : List Cmd) :
    (run env (mkEngine DEFAULT_GAME_CONFIG dims) cmds).state.lives ≤
      DEFAULT_GAME_CONFIG.maxLives := by
  have h0 : (mkEngine DEFAULT_GAME_CONFIG dims).state.lives ≤
      (mkEngine DEFAULT_GAME_CONFIG dims).config.maxLives := le_refl _
  have hb := run_lives_bound env cmds (mkEngine DEFAULT_GAME_CONFIG dims) h0
  rwa [run_config] at hb

set_option maxHeartbeats 1000000 in
/-- Starting the lives-counterexample session. -/
theorem c8step1 :
    (step env0 (mkEngine DEFAULT_GAME_CONFIG dims0) (Cmd.start 0 .easy)).1 = c8E1 := by
  norm_num [step, GameEngine.startGame, GameEngine.resetGame, GameEngine.updateDifficulty,
    PowerUpManager.clearAll, mkEngine, c8E1, c8E, dims0, DEFAULT_GAME_CONFIG]

set_option maxHeartbeats 2000000 in
/-- First spawning update of the counterexample session. -/
theorem c8step2 : (step env0 c8E1 (Cmd.update 601)).1 = c8E2 := by
  norm_num [step, GameEngine.update, GameEngine.tickCombo, GameEngine.spawnBalloons,
    GameEngine.getCurrentDifficulty, Balloon.create, Balloon.selectBalloonType,
    Balloon.init, Balloon.generateColor, GameEngine.updateBalloons, runCull,
    Balloon.update, Balloon.isOffScreen, Balloon.isExpired, GameEngine.applyLosses,
    ParticleSystem.update, PowerUpManager.update, GameEngine.checkGameOver,
    PowerUpManager.isFreezeActive, PowerUpManager.isMagnetActive, PowerUpManager.isActive,
    c8E1, c8E2, c8E, cB, dims0, DEFAULT_GAME_CONFIG, env0, powerupTypes]

set_option maxHeartbeats 2000000 in
/-- Second spawning update of the counterexample session. -/
theorem c8step3 : (step env0 c8E2 (Cmd.update 1202)).1 = c8E3 := by
  norm_num [step, GameEngine.update, GameEngine.tickCombo, GameEngine.spawnBalloons,
    GameEngine.getCurrentDifficulty, Balloon.create, Balloon.selectBalloonType,
    Balloon.init, Balloon.generateColor, GameEngine.updateBalloons, runCull,
    Balloon.update, Balloon.isOffScreen, Balloon.isExpired, GameEngine.applyLosses,
    ParticleSystem.update, PowerUpManager.update, GameEngine.checkGameOver,
    PowerUpManager.isFreezeActive, PowerUpManager.isMagnetActive, PowerUpManager.isActive,
    c8E2, c8E3, c8E, cB, dims0, DEFAULT_GAME_CONFIG, env0, powerupTypes]

set_option maxHeartbeats 2000000 in
/-- Third spawning update of the counterexample session. -/
theorem c8step4 : (step env0 c8E3 (Cmd.update 1803)).1 = c8E4 := by
  norm_num [step, GameEngine.update, GameEngine.tickCombo, GameEngine.spawnBalloons,
    GameEngine.getCurrentDifficulty, Balloon.create, Balloon.selectBalloonType,
    Balloon.init, Balloon.generateColor, GameEngine.updateBalloons, runCull,
    Balloon.update, Balloon.isOffScreen, Balloon.isExpired, GameEngine.applyLosses,
    ParticleSystem.update, PowerUpManager.update, GameEngine.checkGameOver,
    PowerUpManager.isFreezeActive, PowerUpManager.isMagnetActive, PowerUpManager.isActive,
    c8E3, c8E4, c8E, cB, dims0, DEFAULT_GAME_CONFIG, env0, powerupTypes]

set_option maxHeartbeats 2000000 in
/-- Fourth spawning update of the counterexample session. -/
theorem c8step5 : (step env0 c8E4 (Cmd.update 2404)).1 = c8E5 := by
  norm_num [step, GameEngine.update, GameEngine.tickCombo, GameEngine.spawnBalloons,
    GameEngine.getCurrentDifficulty, Balloon.create, Balloon.selectBalloonType,
    Balloon.init, Balloon.generateColor, GameEngine.updateBalloons, runCull,
    Balloon.update, Balloon.isOffScreen, Balloon.isExpired, GameEngine.applyLosses,
    ParticleSystem.update, PowerUpManager.update, GameEngine.checkGameOver,
    PowerUpManager.isFreezeActive, PowerUpManager.isMagnetActive, PowerUpManager.isActive,
    c8E4, c8E5, c8E, cB, dims0, DEFAULT_GAME_CONFIG, env0, powerupTypes]

set_option maxHeartbeats 2000000 in
/-- The final update at t = 60000: all four balloons expire on screen in the
same tick, each charging loseLife, so lives drop from 3 to -1. -/
theorem c8step6 : (step env0 c8E5 (Cmd.update 60000)).1.state.lives = -1 := by
  norm_num [step, GameEngine.update, GameEngine.tickCombo, GameEngine.spawnBalloons,
    GameEngine.getCurrentDifficulty, Balloon.create, Balloon.selectBalloonType,
    Balloon.init, Balloon.generateColor, GameEngine.updateBalloons, runCull,
    Balloon.update, Balloon.isOffScreen, Balloon.isExpired, GameEngine.applyLosses,
    ParticleSystem.update, PowerUpManager.update, GameEngine.checkGameOver,
    GameEngine.gameOverStep, PowerUpManager.clearAll, GameEngine.loseLife,
    GameEngine.resetCombo,
    PowerUpManager.isFreezeActive, PowerUpManager.isMagnetActive, PowerUpManager.isActive,
    c8E5, c8E, cB, dims0, DEFAULT_GAME_CONFIG, env0, powerupTypes]

/-- The whole counterexample session ends with lives = -1. -/
theorem c8_run_lives :
    (run env0 (mkEngine DEFAULT_GAME_CONFIG dims0) c8Cmds).state.lives = -1 := by
  simp only [run, c8Cmds, List.foldl_cons, List.foldl_nil]
  rw [c8step1, c8step2, c8step3, c8step4, c8step5]
  exact c8step6

/-- Counterexample to C8 as stated: lives do not stay between 0 and the
configured maximum — a session in which several expiry penalties land in one
update tick drives lives to -1 before the ended phase is entered. -/
theorem C8_lives_negative_counterexample :
    ¬ (∀ (env : Env), EnvOK env → ∀ (dims : GameDimensions) (cmds : List Cmd),
        0 ≤ (run env (mkEngine DEFAULT_GAME_CONFIG dims) cmds).state.lives ∧
        (run env (mkEngine DEFAULT_GAME_CONFIG dims) cmds).state.lives ≤
          DEFAULT_GAME_CONFIG.maxLives) := by
  intro h
  have hg := (h env0 envOK_env0 dims0 c8Cmds).1
  rw [c8_run_lives] at hg
  norm_num at hg
